import Mathlib

/-!
Verification of the orchestration controller and result-normalization
pipeline of `backend/app/main.py` (an F1 analytics service).

The Python source is shallowly embedded:
* Python runtime values occurring in table cells are modelled by `PyVal`
  (`float` values other than `NaN` do not occur in any claim, so the only
  float modelled is the missing-data marker `NaN`);
* a pandas `DataFrame` is modelled by `DataFrame`: a list of column names
  plus rows carried as name/value association lists (the pandas integer
  index is not modelled; all operations used by the source are
  positional / label-based);
* the two text parsers used by `validate_constructor_data`
  (`json.loads` and `ast.literal_eval`) are standard-library functions,
  not repository code; they are passed in as parameters of type
  `String → Option PyVal`, where `none` models the exceptions the source
  catches (`json.JSONDecodeError`, resp. `ValueError`/`SyntaxError`);
* Python exceptions crossing the controller's stage boundaries are
  modelled by the explicit error type `Exn`, and fallible steps return
  `Except Exn _`.
-/

/-- A Python value as it can occur in a table cell of this program.
`vNaN` is pandas' missing-data marker (a float `nan`). -/
inductive PyVal where
  | vNone : PyVal
  | vNaN : PyVal
  | vInt : Int → PyVal
  | vStr : String → PyVal
  | vList : List PyVal → PyVal
  | vDict : List (String × PyVal) → PyVal

mutual

/-- Structural equality test for `PyVal` (deriving cannot handle the
nested inductive on this toolchain). -/
def PyVal.decEq : (x y : PyVal) → Decidable (x = y)
  | .vNone, .vNone => isTrue rfl
  | .vNone, .vNaN => isFalse nofun
  | .vNone, .vInt _ => isFalse nofun
  | .vNone, .vStr _ => isFalse nofun
  | .vNone, .vList _ => isFalse nofun
  | .vNone, .vDict _ => isFalse nofun
  | .vNaN, .vNone => isFalse nofun
  | .vNaN, .vNaN => isTrue rfl
  | .vNaN, .vInt _ => isFalse nofun
  | .vNaN, .vStr _ => isFalse nofun
  | .vNaN, .vList _ => isFalse nofun
  | .vNaN, .vDict _ => isFalse nofun
  | .vInt _, .vNone => isFalse nofun
  | .vInt _, .vNaN => isFalse nofun
  | .vInt a, .vInt b =>
    (match Int.decEq a b with
    | isTrue h => isTrue (by rw [h])
    | isFalse h => isFalse (by intro hh; injection hh; contradiction))
  | .vInt _, .vStr _ => isFalse nofun
  | .vInt _, .vList _ => isFalse nofun
  | .vInt _, .vDict _ => isFalse nofun
  | .vStr _, .vNone => isFalse nofun
  | .vStr _, .vNaN => isFalse nofun
  | .vStr _, .vInt _ => isFalse nofun
  | .vStr a, .vStr b =>
    (match String.decEq a b with
    | isTrue h => isTrue (by rw [h])
    | isFalse h => isFalse (by intro hh; injection hh; contradiction))
  | .vStr _, .vList _ => isFalse nofun
  | .vStr _, .vDict _ => isFalse nofun
  | .vList _, .vNone => isFalse nofun
  | .vList _, .vNaN => isFalse nofun
  | .vList _, .vInt _ => isFalse nofun
  | .vList _, .vStr _ => isFalse nofun
  | .vList xs, .vList ys =>
    (match PyVal.decEqList xs ys with
    | isTrue h => isTrue (by rw [h])
    | isFalse h => isFalse (by intro hh; injection hh; contradiction))
  | .vList _, .vDict _ => isFalse nofun
  | .vDict _, .vNone => isFalse nofun
  | .vDict _, .vNaN => isFalse nofun
  | .vDict _, .vInt _ => isFalse nofun
  | .vDict _, .vStr _ => isFalse nofun
  | .vDict _, .vList _ => isFalse nofun
  | .vDict xs, .vDict ys =>
    (match PyVal.decEqKVs xs ys with
    | isTrue h => isTrue (by rw [h])
    | isFalse h => isFalse (by intro hh; injection hh; contradiction))
  termination_by structural x => x

def PyVal.decEqList : (xs ys : List PyVal) → Decidable (xs = ys)
  | [], [] => isTrue rfl
  | [], _ :: _ => isFalse nofun
  | _ :: _, [] => isFalse nofun
  | x :: xs, y :: ys =>
    (match PyVal.decEq x y, PyVal.decEqList xs ys with
    | isTrue h1, isTrue h2 => isTrue (by rw [h1, h2])
    | isFalse h1, _ => isFalse (by intro hh; injection hh; contradiction)
    | _, isFalse h2 => isFalse (by intro hh; injection hh; contradiction))
  termination_by structural xs => xs

def PyVal.decEqKVs : (xs ys : List (String × PyVal)) → Decidable (xs = ys)
  | [], [] => isTrue rfl
  | [], _ :: _ => isFalse nofun
  | _ :: _, [] => isFalse nofun
  | (k, v) :: xs, (k2, v2) :: ys =>
    (match String.decEq k k2, PyVal.decEq v v2, PyVal.decEqKVs xs ys with
    | isTrue h0, isTrue h1, isTrue h2 => isTrue (by rw [h0, h1, h2])
    | isFalse h0, _, _ =>
      isFalse (by intro hh; injection hh with ha hb; exact h0 (congrArg Prod.fst ha))
    | _, isFalse h1, _ =>
      isFalse (by intro hh; injection hh with ha hb; exact h1 (congrArg Prod.snd ha))
    | _, _, isFalse h2 => isFalse (by intro hh; injection hh; contradiction))
  termination_by structural xs => xs

end

instance : DecidableEq PyVal := PyVal.decEq

namespace PyVal

/-- `isinstance(v, list)`. -/
def isList : PyVal → Bool
  | vList _ => true
  | _ => false

/-- `isinstance(v, dict)`. -/
def isDict : PyVal → Bool
  | vDict _ => true
  | _ => false

/-- `isinstance(v, str)`. -/
def isStr : PyVal → Bool
  | vStr _ => true
  | _ => false

def isNaN : PyVal → Bool
  | vNaN => true
  | _ => false

/-- Python truthiness (`bool(v)`) for the values of this model. -/
def pyTruthy : PyVal → Bool
  | vNone => false
  | vNaN => true
  | vInt n => n != 0
  | vStr s => s != ""
  | vList xs => !xs.isEmpty
  | vDict kvs => !kvs.isEmpty

/-- `dict.get(k)`: the first binding of `k`, `none` when absent or when the
value is not a mapping. -/
def dictGet : PyVal → String → Option PyVal
  | vDict kvs, k => kvs.lookup k
  | _, _ => none

/-- Python `==` on cell values as pandas applies it element-wise.
`NaN` compares unequal to everything (itself included); all other values
compare structurally.  (Python's identity shortcut for containers and its
numeric cross-type equalities are not exercised by any claim.) -/
def pyEq (x y : PyVal) : Bool :=
  !x.isNaN && !y.isNaN && x == y

/-- `str.isdigit()` (restricted to ASCII digits, the only digits occurring
in this development). -/
def strIsDigit (s : String) : Bool :=
  !s.isEmpty && s.toList.all Char.isDigit

/-- The predicate of `clean_dataframe` line 113:
`isinstance(x, (int, float)) or (isinstance(x, str) and x.isdigit())`.
The only float of the model is `NaN`. -/
def isNumericLike : PyVal → Bool
  | vInt _ => true
  | vNaN => true
  | vStr s => strIsDigit s
  | _ => false

/-- `type(v)` rendered as Python prints it, used in the shape-error
message of the controller. -/
def typeName : PyVal → String
  | vNone => "<class 'NoneType'>"
  | vNaN => "<class 'float'>"
  | vInt _ => "<class 'int'>"
  | vStr _ => "<class 'str'>"
  | vList _ => "<class 'list'>"
  | vDict _ => "<class 'dict'>"

/-- A scalar in the sense of the controller's coercion step: neither a
table, nor a mapping, nor a list. -/
def isScalar : PyVal → Bool
  | vDict _ => false
  | vList _ => false
  | _ => true

end PyVal

open PyVal

/-- Keep the first occurrence of every key `f a`, skipping elements whose
key was already seen (`seen` accumulates keys).  This is the keep-first
deduplication pandas' `drop_duplicates` performs. -/
def dedupFirst {α β : Type} [DecidableEq β] (f : α → β) : List α → List β → List α
  | [], _ => []
  | a :: as, seen =>
    if f a ∈ seen then dedupFirst f as seen
    else a :: dedupFirst f as (f a :: seen)

/-- A row of a table: an association list from column names to cell
values, listed in column order. -/
abbrev Row := List (String × PyVal)

/-- A pandas `DataFrame`: named columns and ordered rows.  Each row
carries its column names (well-formed tables repeat `cols` in each row);
the integer index is not modelled. -/
structure DataFrame where
  cols : List String
  rows : List Row
deriving DecidableEq

namespace DataFrame

/-- The cell of row `r` in column `c`; a label miss yields `NaN`
(well-formed tables never miss). -/
def cell (c : String) (r : Row) : PyVal :=
  (r.lookup c).getD .vNaN

/-- `c in df.columns`. -/
def hasCol (df : DataFrame) (c : String) : Bool :=
  df.cols.contains c

/-- `df[c]` as a list of cell values down the rows. -/
def getCol (df : DataFrame) (c : String) : List PyVal :=
  df.rows.map (cell c)

/-- `df[c] = vs`: replace column `c` in place when it exists, otherwise
append it on the right. -/
def setCol (df : DataFrame) (c : String) (vs : List PyVal) : DataFrame :=
  if c ∈ df.cols then
    ⟨df.cols, df.rows.zipWith (fun r v => r.map (fun p => if p.1 = c then (c, v) else p)) vs⟩
  else
    ⟨df.cols ++ [c], df.rows.zipWith (fun r v => r ++ [(c, v)]) vs⟩

/-- `df.drop(c, axis=1)`. -/
def dropCol (df : DataFrame) (c : String) : DataFrame :=
  ⟨df.cols.filter (· ≠ c), df.rows.map (fun r => r.filter (fun p => p.1 ≠ c))⟩

/-- `df[df[c].apply(p)]`: keep the rows whose cell in column `c`
satisfies `p`. -/
def filterOnCol (df : DataFrame) (c : String) (p : PyVal → Bool) : DataFrame :=
  ⟨df.cols, df.rows.filter (fun r => p (cell c r))⟩

/-- The comparison key `drop_duplicates` uses: the tuple of bindings of
the `sub` columns. -/
def dupKey (sub : List String) (r : Row) : List (Option PyVal) :=
  sub.map (fun c => r.lookup c)

/-- `df.drop_duplicates(subset=sub)`: keep the first row of every
distinct key, the key being the tuple of cells in the `sub` columns. -/
def dropDuplicates (df : DataFrame) (sub : List String) : DataFrame :=
  ⟨df.cols, dedupFirst (dupKey sub) df.rows []⟩

/-- `df.empty`: true when either axis has length zero. -/
def dfEmpty (df : DataFrame) : Bool :=
  df.rows.isEmpty || df.cols.isEmpty

/-- `pd.concat([a, b], axis=1)` for two frames with equal default
indices: columns side by side. -/
def concatH (a b : DataFrame) : DataFrame :=
  ⟨a.cols ++ b.cols, a.rows.zipWith (· ++ ·) b.rows⟩

end DataFrame

open DataFrame

/-! ## Table Normalizer (`clean_dataframe`, main.py lines 106-128) -/

/-- Lines 111-114: remove the rows whose `ConstructorTable` cell is a bare
number or a numeric-only string (skipped when the column is absent). -/
def numericFilterStep (df : DataFrame) : DataFrame :=
  if "ConstructorTable" ∈ df.cols then
    df.filterOnCol "ConstructorTable" (fun x => !x.isNumericLike)
  else df

/-- Lines 116-120: drop duplicate rows, comparing on every column except
`ConstructorTable`, keeping first occurrences (skipped when that leaves
no columns to compare on). -/
def dedupStep (df : DataFrame) : DataFrame :=
  if (df.cols.filter (· ≠ "ConstructorTable")).isEmpty then df
  else df.dropDuplicates (df.cols.filter (· ≠ "ConstructorTable"))

/-- The row predicate of line 124: `df['year'] == df['season']`. -/
def yearSeasonPred (r : Row) : Bool :=
  pyEq (cell "year" r) (cell "season" r)

/-- Lines 122-126: when both `year` and `season` columns exist, keep only
the rows on which they agree, then drop `season`. -/
def yearSeasonStep (df : DataFrame) : DataFrame :=
  if "year" ∈ df.cols ∧ "season" ∈ df.cols then
    DataFrame.dropCol ⟨df.cols, df.rows.filter yearSeasonPred⟩ "season"
  else df

/-- `clean_dataframe` (lines 106-128): the three cleaning steps in source
order. -/
def clean_dataframe (df : DataFrame) : DataFrame :=
  yearSeasonStep (dedupStep (numericFilterStep df))

/-! ## Constructor Field Expander
(`validate_constructor_data` lines 44-62,
`normalize_constructor_data` lines 64-104)

The two text parsers are parameters `jp` (for `json.loads`) and `lp`
(for `ast.literal_eval`); `none` models the exceptions the source
catches (`json.JSONDecodeError`, resp. `ValueError`/`SyntaxError`).
With every fallible sub-step explicit as an `Option`, the functions
below are total: no code path raises. -/

/-- `validate_constructor_data` (lines 44-62): strings are parsed with
`jp`, then `lp` as a fallback (each parse failure is caught); an outcome
that is not a list — including a double parse failure, whose early
`return []` is modelled by `parsed = none` — degrades to the empty
list. -/
def validate_constructor_data (jp lp : String → Option PyVal) (v : PyVal) : PyVal :=
  let parsed : Option PyVal :=
    match v with
    | .vStr s =>
      match jp s with
      | some d => some d
      | none =>
        match lp s with
        | some d => some d
        | none => none
    | _ => some v
  match parsed with
  | none => .vList []
  | some d => if d.isList then d else .vList []

/-- Modelled from the spec (§4.3 step 1 and §9): the cell resolver as the
specification words it — try the structured-text parse, else the
language-literal fallback, else (or when the parse result is not
list-shaped) resolve to the empty list, an already-structured list
passing through unchanged.  Used only to compare against
`validate_constructor_data`. -/
def resolveCellSpec (jp lp : String → Option PyVal) (v : PyVal) : PyVal :=
  match v with
  | .vStr s =>
    match (jp s).orElse (fun _ => lp s) with
    | some d => if d.isList then d else .vList []
    | none => .vList []
  | .vList xs => .vList xs
  | _ => .vList []

/-- The entry predicate of lines 78-79:
`isinstance(item, dict) and item.get('constructorId') == 'ferrari'`. -/
def isFerrariEntry (item : PyVal) : Bool :=
  item.isDict && pyEq ((item.dictGet "constructorId").getD .vNone) (.vStr "ferrari")

/-- Lines 77-80: `next((item for item in x if ...), {})` — the first
matching entry of the resolved list, the empty mapping when none
matches.  (After `validate_constructor_data` the cell is always a list;
a non-list yields the empty mapping.) -/
def selectFerrari : PyVal → PyVal
  | .vList xs => (xs.find? isFerrariEntry).getD (.vDict [])
  | _ => .vDict []

/-- `pd.json_normalize` path naming: nested keys joined with `"."`. -/
def joinKey (pre k : String) : String :=
  if pre = "" then k else pre ++ "." ++ k

mutual

/-- One value of a record under `pd.json_normalize`: a nested mapping is
flattened recursively, anything else is kept as a single cell. -/
def flatVal (pre k : String) : PyVal → List (String × PyVal)
  | .vDict kvs => flatKVs (joinKey pre k) kvs
  | v => [(joinKey pre k, v)]

/-- The flattened bindings of a record's entries under prefix `pre`. -/
def flatKVs (pre : String) : List (String × PyVal) → List (String × PyVal)
  | [] => []
  | (k, v) :: rest => flatVal pre k v ++ flatKVs pre rest

end

/-- The flattened bindings of one record (`pd.json_normalize` on a single
mapping; a non-mapping contributes no bindings). -/
def flattenRecord : PyVal → List (String × PyVal)
  | .vDict kvs => flatKVs "" kvs
  | _ => []

/-- Append a key on the right unless already present. -/
def insertKey (acc : List String) (k : String) : List String :=
  if k ∈ acc then acc else acc ++ [k]

/-- `pd.json_normalize(recs)`: columns are the flattened keys in order of
first appearance across the records; a record missing a column gets
`NaN` there. -/
def jsonNormalize (recs : List PyVal) : DataFrame :=
  let flats := recs.map flattenRecord
  let cols := flats.foldl (fun acc fr => (fr.map Prod.fst).foldl insertKey acc) []
  ⟨cols, flats.map (fun fr => cols.map (fun c => (c, (fr.lookup c).getD .vNaN)))⟩

/-- Line 74: re-write the `ConstructorTable` column through the
resolver. -/
def expanderValidated (jp lp : String → Option PyVal) (df : DataFrame) : DataFrame :=
  df.setCol "ConstructorTable"
    ((df.getCol "ConstructorTable").map (validate_constructor_data jp lp))

/-- Lines 77-80 (`df['constructor_data'] = df['ConstructorTable'].apply(...)`)
on top of line 74. -/
def expanderSelected (jp lp : String → Option PyVal) (df : DataFrame) : DataFrame :=
  (expanderValidated jp lp df).setCol "constructor_data"
    (((expanderValidated jp lp df).getCol "ConstructorTable").map selectFerrari)

/-- Line 86: drop the original `ConstructorTable` column. -/
def expanderDropped (jp lp : String → Option PyVal) (df : DataFrame) : DataFrame :=
  (expanderSelected jp lp df).dropCol "ConstructorTable"

/-- Lines 88-99: expand the selections into flat columns when the table
is non-empty and the FIRST row of `constructor_data` (`.iloc[0]`) is
truthy; either way the intermediate column is dropped. -/
def expanderExpand (df3 : DataFrame) : DataFrame :=
  if !df3.dfEmpty && pyTruthy ((df3.getCol "constructor_data").headD .vNaN) then
    concatH (df3.dropCol "constructor_data") (jsonNormalize (df3.getCol "constructor_data"))
  else
    df3.dropCol "constructor_data"

/-- `normalize_constructor_data` (lines 64-104): the steps above guarded
by the column-presence check of line 67.  The source's two `try/except`
wrappers (lines 66/102 and 90/94) catch exceptions of sub-steps; in this
embedding every sub-step is total, so both handlers are unreachable and
the function returns normally on every input. -/
def normalize_constructor_data (jp lp : String → Option PyVal) (df : DataFrame) : DataFrame :=
  if "ConstructorTable" ∈ df.cols then
    expanderExpand (expanderDropped jp lp df)
  else df

/-! ## Orchestration Controller (`analyze_f1_data`, main.py lines 130-249)

External collaborators (query processor, adapters, data pipeline, code
generator, code executor) are modelled by their outcomes: each is called
at most once, in a fixed order, so a collaborator is either an `Except`
value (its result, or the exception it raised) carried in a
`Collaborators` record.  Wall-clock readings `datetime.now().timestamp()`
are modelled by two integer parameters: `t0` (taken at line 142) and
`tEnd` (taken at whichever `return` executes).  The returned stage list
records which stages were entered, in order — it captures the source's
strict sequencing and lets "stage never runs" be stated. -/

/-- A Python exception crossing a controller stage boundary:
`HTTPException(400, detail)` (the only status code the source uses), or
any other exception with its `str(e)` text. -/
inductive Exn where
  | http : String → Exn
  | err : String → Exn
deriving DecidableEq

/-- `str(e)`: FastAPI's `HTTPException` prints as `"{status}: {detail}"`
with status 400 throughout this source. -/
def strExn : Exn → String
  | .http d => "400: " ++ d
  | .err m => m

/-- The adapted pipeline result (`OptimizedResultAdapter` output):
`{success, data, error, metadata}`.  `data` is the payload dictionary;
its `'results'` entry may be a DataFrame or a plain value. -/
inductive ResVal where
  | df : DataFrame → ResVal
  | val : PyVal → ResVal
deriving DecidableEq

structure PipelineResultM where
  success : Bool
  data : Option (List (String × ResVal))
  error : Option String
  metadata : PyVal

/-- `pipeline_result.error or 'No data returned'` (line 170): Python `or`
takes the right operand when the left is falsy (`None` or `""`). -/
def pipelineErrText : Option String → String
  | some s => if s = "" then "No data returned" else s
  | none => "No data returned"

/-- `pipeline_result.data.get('results', {})` (line 174). -/
def getResults (d : Option (List (String × ResVal))) : ResVal :=
  ((d.getD []).lookup "results").getD (.val (.vDict []))

/-- Python `str(v)` for the interpolation at line 221 (moderate fidelity:
only the error message of a failed execution uses it, and no claim
constrains that text beyond being a message). -/
def pyStr : PyVal → String
  | .vNone => "None"
  | .vNaN => "nan"
  | .vInt n => toString n
  | .vStr s => s
  | .vList _ => "<list>"
  | .vDict _ => "<dict>"

/-- Keys of a mapping in first-appearance order (a Python `dict` cannot
repeat a key; assoc-list models with repeats keep the first binding). -/
def recordKeys : PyVal → List String
  | .vDict kvs => (kvs.map Prod.fst).foldl insertKey []
  | _ => []

/-- `pd.DataFrame(recs)` on a list of records: columns are the union of
the records' keys in first-appearance order, missing entries are `NaN`
(nested values stay whole — no flattening at this step). -/
def dfOfRecords (recs : List PyVal) : DataFrame :=
  let cols := recs.foldl (fun acc v => (recordKeys v).foldl insertKey acc) []
  ⟨cols, recs.map (fun v => cols.map (fun c => (c, (v.dictGet c).getD .vNaN)))⟩

/-- `pd.DataFrame(xs)` on a general list (line 186): a list of mappings
becomes a multi-row record table; a list of plain values becomes a
single positional column (pandas labels it `0`; the label is rendered as
a string here).  No claim exercises the non-record case. -/
def dfOfList (xs : List PyVal) : DataFrame :=
  if xs.all PyVal.isDict then dfOfRecords xs
  else ⟨["0"], xs.map (fun v => [("0", v)])⟩

/-- Lines 180-189: coerce the pipeline payload into a DataFrame.  A
DataFrame passes through; a mapping becomes a one-row table
(`pd.DataFrame([results])`); a list becomes a table; anything else
raises `ValueError(f"Cannot process results of type: ...")`. -/
def coerceResults : ResVal → Except Exn DataFrame
  | .df d => .ok d
  | .val v =>
    match v with
    | .vDict kvs => .ok (dfOfRecords [.vDict kvs])
    | .vList xs => .ok (dfOfList xs)
    | _ => .error (.err ("Cannot process results of type: " ++ v.typeName))

/-- Lines 178-207, the inner `try` block: coercion, cleaning,
normalization and the emptiness check; any exception `e` inside it is
caught and re-raised as
`HTTPException(400, f"Failed to process data: {str(e)}")`. -/
def innerProcess (jp lp : String → Option PyVal) (results : ResVal) : Except Exn DataFrame :=
  let body : Except Exn DataFrame := do
    let df0 ← coerceResults results
    let df1 := clean_dataframe df0
    let df2 := normalize_constructor_data jp lp df1
    if df2.dfEmpty then
      throw (Exn.http "No data available after processing")
    else
      pure df2
  match body with
  | .ok df => .ok df
  | .error e => .error (.http ("Failed to process data: " ++ strExn e))

/-- The stages of the controller, in source order.  `process` is the
inner DataFrame block (coercion + cleaning + normalization). -/
inductive Stage where
  | interpret | adaptQuery | fetch | adaptResult | process | genCode | execCode
deriving DecidableEq

/-- The endpoint's response: the success shape of lines 225-232 or the
uniform failure shape of lines 236-241/244-249.  `processing_time` is
the integer-modelled elapsed time. -/
inductive Response where
  | ok : PyVal → String → PyVal → Int → PyVal → Response
  | fail : String → String → Int → Response
deriving DecidableEq

/-- The `processing_time` field, present in both response shapes. -/
def Response.ptime : Response → Int
  | .ok _ _ _ t _ => t
  | .fail _ _ t => t

/-- The outcomes of the external collaborators for one request, plus the
two cell parsers the expander uses. -/
structure Collaborators where
  processQuery : Except Exn PyVal
  adaptQuery : Except Exn Unit
  runPipeline : Except Exn Unit
  adaptResult : Except Exn PipelineResultM
  jp : String → Option PyVal
  lp : String → Option PyVal
  generate : Except Exn String
  execute : Except Exn (Bool × PyVal × String)

/-- A row-wise description of the expander's selections, used to state
its branch behaviour: the ferrari record selected from each row's
resolved `ConstructorTable` cell. -/
def rowSelections (jp lp : String → Option PyVal) (df : DataFrame) : List PyVal :=
  df.rows.map (fun r => selectFerrari (validate_constructor_data jp lp (cell "ConstructorTable" r)))

/-- Well-formedness of a table as pandas guarantees it: distinct column
labels, and every row carrying exactly the columns in order. -/
def DataFrame.WF (df : DataFrame) : Prop :=
  df.cols.Nodup ∧ ∀ r ∈ df.rows, r.map Prod.fst = df.cols

instance (df : DataFrame) : Decidable df.WF := by
  unfold DataFrame.WF; infer_instance

/-- A parser outcome for concrete test tables whose cells are already
structured (no text cell is ever parsed there). -/
def noParse : String → Option PyVal := fun _ => none

/-- The constructor-list cell of the spec's §8 example:
`[{"constructorId":"ferrari","points":90},{"constructorId":"mclaren","points":50}]`
as an already-structured list. -/
def ferrariCell : PyVal :=
  .vList [.vDict [("constructorId", .vStr "ferrari"), ("points", .vInt 90)],
          .vDict [("constructorId", .vStr "mclaren"), ("points", .vInt 50)]]

/-- One-row table holding the §8 example cell. -/
def dfExample : DataFrame :=
  ⟨["year", "ConstructorTable"],
   [[("year", .vInt 2021), ("ConstructorTable", ferrariCell)]]⟩

/-- Two-row table whose FIRST row selects no ferrari record but whose
second row does: the input separating `.iloc[0]` from "at least one
row". -/
def dfFirstRowEmpty : DataFrame :=
  ⟨["year", "ConstructorTable"],
   [[("year", .vInt 2020), ("ConstructorTable", .vList [])],
    [("year", .vInt 2021), ("ConstructorTable", ferrariCell)]]⟩

/-- Both `except` handlers (lines 234-249) produce
`{success: False, error: "Analysis failed", details: ..., processing_time: ...}`,
with `details` the `HTTPException.detail`, resp. `str(e)`. -/
def failureResponse (e : Exn) (pt : Int) : Response :=
  match e with
  | .http d => .fail "Analysis failed" d pt
  | .err m => .fail "Analysis failed" m pt

/-- `analyze_f1_data` (lines 130-249): the staged sequence with each
fault converted into the uniform failure response.  Returns the response
together with the list of stages entered. -/
def analyze_f1_data (c : Collaborators) (t0 tEnd : Int) : Response × List Stage :=
  match c.processQuery with
  | .error e => (failureResponse e (tEnd - t0), [.interpret])
  | .ok trace =>
    match c.adaptQuery with
    | .error e => (failureResponse e (tEnd - t0), [.interpret, .adaptQuery])
    | .ok _ =>
      match c.runPipeline with
      | .error e => (failureResponse e (tEnd - t0), [.interpret, .adaptQuery, .fetch])
      | .ok _ =>
        match c.adaptResult with
        | .error e =>
          (failureResponse e (tEnd - t0), [.interpret, .adaptQuery, .fetch, .adaptResult])
        | .ok pr =>
          if !pr.success || pr.data.isNone then
            (failureResponse (.http ("Pipeline processing failed: " ++ pipelineErrText pr.error))
               (tEnd - t0),
             [.interpret, .adaptQuery, .fetch, .adaptResult])
          else
            match innerProcess c.jp c.lp (getResults pr.data) with
            | .error e =>
              (failureResponse e (tEnd - t0),
               [.interpret, .adaptQuery, .fetch, .adaptResult, .process])
            | .ok _ =>
              match c.generate with
              | .error e =>
                (failureResponse e (tEnd - t0),
                 [.interpret, .adaptQuery, .fetch, .adaptResult, .process, .genCode])
              | .ok _ =>
                match c.execute with
                | .error e =>
                  (failureResponse e (tEnd - t0),
                   [.interpret, .adaptQuery, .fetch, .adaptResult, .process, .genCode, .execCode])
                | .ok (succ, result, executed) =>
                  if !succ then
                    (failureResponse (.http ("Code execution failed: " ++ pyStr result)) (tEnd - t0),
                     [.interpret, .adaptQuery, .fetch, .adaptResult, .process, .genCode, .execCode])
                  else
                    (.ok result executed trace (tEnd - t0) pr.metadata,
                     [.interpret, .adaptQuery, .fetch, .adaptResult, .process, .genCode, .execCode])

/-! ## Theorems -/

/-- `find?` returns the head of the filtered list. -/
lemma find?_eq_head?_of_filter {α : Type} (p : α → Bool) (l : List α) :
    l.find? p = (l.filter p).head? := by
  induction l with
  | nil => rfl
  | cons a t ih =>
    cases h : p a with
    | true =>
      simp only [List.find?_cons, List.filter_cons, h, List.head?_cons]
      simp
    | false =>
      simp only [List.find?_cons, List.filter_cons, h, Bool.false_eq_true, if_false]
      exact ih

/-- C4: for the §8 example cell
`[{"constructorId":"ferrari","points":90},{"constructorId":"mclaren","points":50}]`,
the expanded row has a `points` column valued `90`, and nothing derived
from the mclaren record (its values `"mclaren"` and `50`) appears: the
whole output table is exactly the original row extended with ferrari's
two fields. -/
theorem expander_ferrari_example :
    normalize_constructor_data noParse noParse dfExample
      = ⟨["year", "constructorId", "points"],
         [[("year", .vInt 2021), ("constructorId", .vStr "ferrari"), ("points", .vInt 90)]]⟩ ∧
    cell "points" ((normalize_constructor_data noParse noParse dfExample).rows.headD [])
      = .vInt 90 := by
  decide

/-- C10: the selection of lines 77-80 returns the first entry (in list
order) that is a mapping whose `constructorId` equals `"ferrari"` — so
with several matches the first wins — and entries that are not mappings
are skipped by the generator's `isinstance` guard, hence never selected:
the selection is always a mapping (the matched one, or the empty default). -/
theorem selectFerrari_first_match (xs : List PyVal) :
    selectFerrari (.vList xs) = ((xs.filter isFerrariEntry).head?).getD (.vDict [])
      ∧ (selectFerrari (.vList xs)).isDict = true := by
  constructor
  · show (xs.find? isFerrariEntry).getD (.vDict []) = _
    rw [find?_eq_head?_of_filter]
  · cases h : xs.find? isFerrariEntry with
    | none => simp [selectFerrari, h, PyVal.isDict]
    | some a =>
      have ha := List.find?_some h
      simp only [selectFerrari, h, Option.getD_some]
      simp only [isFerrariEntry, Bool.and_eq_true] at ha
      exact ha.1

/-- C8: the cell resolver of lines 44-62 agrees with the resolver as the
spec words it — structured-text parse first, the language-literal
fallback on failure, the empty list when both fail or when the parsed
value is not list-shaped, an already-structured list unchanged — and its
result is always a list (every parse fault is caught inside it, so it
returns normally on every input). -/
theorem validate_matches_spec_resolver (jp lp : String → Option PyVal) (v : PyVal) :
    validate_constructor_data jp lp v = resolveCellSpec jp lp v
      ∧ (validate_constructor_data jp lp v).isList = true := by
  cases v with
  | vStr s =>
    cases hj : jp s with
    | some d =>
      cases d <;> simp [validate_constructor_data, resolveCellSpec, hj, Option.orElse, PyVal.isList]
    | none =>
      cases hl : lp s with
      | some d =>
        cases d <;>
          simp [validate_constructor_data, resolveCellSpec, hj, hl, Option.orElse, PyVal.isList]
      | none =>
        simp [validate_constructor_data, resolveCellSpec, hj, hl, Option.orElse, PyVal.isList]
  | vList xs => simp [validate_constructor_data, resolveCellSpec, PyVal.isList]
  | vNone => simp [validate_constructor_data, resolveCellSpec, PyVal.isList]
  | vNaN => simp [validate_constructor_data, resolveCellSpec, PyVal.isList]
  | vInt n => simp [validate_constructor_data, resolveCellSpec, PyVal.isList]
  | vDict kvs => simp [validate_constructor_data, resolveCellSpec, PyVal.isList]

/-! ### Shape lemmas for the table operations -/

@[simp] lemma dropCol_cols (df : DataFrame) (c : String) :
    (df.dropCol c).cols = df.cols.filter (· ≠ c) := rfl

@[simp] lemma dropCol_rows_length (df : DataFrame) (c : String) :
    (df.dropCol c).rows.length = df.rows.length := by
  simp [DataFrame.dropCol]

@[simp] lemma getCol_length (df : DataFrame) (c : String) :
    (df.getCol c).length = df.rows.length := by
  simp [DataFrame.getCol]

lemma setCol_cols (df : DataFrame) (c : String) (vs : List PyVal) :
    (df.setCol c vs).cols = if c ∈ df.cols then df.cols else df.cols ++ [c] := by
  unfold DataFrame.setCol
  split <;> simp [*]

@[simp] lemma setCol_rows_length (df : DataFrame) (c : String) (vs : List PyVal) :
    (df.setCol c vs).rows.length = min df.rows.length vs.length := by
  unfold DataFrame.setCol
  split <;> simp

@[simp] lemma concatH_cols (a b : DataFrame) :
    (concatH a b).cols = a.cols ++ b.cols := rfl

@[simp] lemma concatH_rows_length (a b : DataFrame) :
    (concatH a b).rows.length = min a.rows.length b.rows.length := by
  simp [concatH]

@[simp] lemma jsonNormalize_rows_length (recs : List PyVal) :
    (jsonNormalize recs).rows.length = recs.length := by
  simp [jsonNormalize]

@[simp] lemma expanderValidated_rows_length (jp lp : String → Option PyVal) (df : DataFrame) :
    (expanderValidated jp lp df).rows.length = df.rows.length := by
  unfold expanderValidated
  simp

lemma expanderValidated_cols (jp lp : String → Option PyVal) (df : DataFrame)
    (h : "ConstructorTable" ∈ df.cols) :
    (expanderValidated jp lp df).cols = df.cols := by
  unfold expanderValidated
  rw [setCol_cols, if_pos h]

@[simp] lemma expanderSelected_rows_length (jp lp : String → Option PyVal) (df : DataFrame) :
    (expanderSelected jp lp df).rows.length = df.rows.length := by
  unfold expanderSelected
  simp

lemma expanderSelected_cols (jp lp : String → Option PyVal) (df : DataFrame)
    (h : "ConstructorTable" ∈ df.cols) :
    (expanderSelected jp lp df).cols
      = if "constructor_data" ∈ df.cols then df.cols else df.cols ++ ["constructor_data"] := by
  unfold expanderSelected
  rw [setCol_cols, expanderValidated_cols jp lp df h]

@[simp] lemma expanderDropped_rows_length (jp lp : String → Option PyVal) (df : DataFrame) :
    (expanderDropped jp lp df).rows.length = df.rows.length := by
  unfold expanderDropped
  simp

lemma expanderDropped_dropCD_cols (jp lp : String → Option PyVal) (df : DataFrame)
    (h : "ConstructorTable" ∈ df.cols) :
    ((expanderDropped jp lp df).dropCol "constructor_data").cols
      = (df.cols.filter (· ≠ "ConstructorTable")).filter (· ≠ "constructor_data") := by
  unfold expanderDropped
  rw [dropCol_cols, dropCol_cols, expanderSelected_cols jp lp df h]
  split
  · rfl
  · simp [List.filter_append]

/-- C2: whatever the cell contents and whatever the two parsers do
(`jp`/`lp` are universally quantified, so every combination of parse
successes and caught parse failures is covered), the expander returns
normally — it is a total function of this embedding, every fallible
sub-step being explicit — with the same number of rows, and its columns
are the input columns minus the constructor-list column (and minus the
intermediate `constructor_data` name) followed by whatever expansion
produced; in the worst case `extra = []`: the constructor-list column is
gone and nothing was added. -/
theorem normalize_never_raises_shape (jp lp : String → Option PyVal) (df : DataFrame)
    (h : "ConstructorTable" ∈ df.cols) :
    ∃ extra,
      (normalize_constructor_data jp lp df).cols
        = (df.cols.filter (· ≠ "ConstructorTable")).filter (· ≠ "constructor_data") ++ extra
      ∧ (normalize_constructor_data jp lp df).rows.length = df.rows.length := by
  unfold normalize_constructor_data
  rw [if_pos h]
  unfold expanderExpand
  split
  · refine ⟨(jsonNormalize ((expanderDropped jp lp df).getCol "constructor_data")).cols, ?_, ?_⟩
    · rw [concatH_cols, expanderDropped_dropCD_cols jp lp df h]
    · simp
  · refine ⟨[], ?_, ?_⟩
    · rw [List.append_nil, expanderDropped_dropCD_cols jp lp df h]
    · simp

/-! ### Row-level lookup lemmas -/

lemma lookup_filter_ne (r : Row) (c s : String) (h : c ≠ s) :
    (r.filter (fun p => p.1 ≠ s)).lookup c = r.lookup c := by
  induction r with
  | nil => rfl
  | cons p t ih =>
    obtain ⟨k, w⟩ := p
    by_cases hp : k = s
    · subst hp
      have hc : (c == k) = false := beq_eq_false_iff_ne.mpr h
      simp only [ne_eq, decide_not] at ih
      simp [List.filter_cons, List.lookup_cons, hc, ih]
    · cases hc : c == k with
      | true => simp [List.filter_cons, hp, List.lookup_cons, hc]
      | false =>
        simp only [ne_eq, decide_not] at ih
        simp [List.filter_cons, hp, List.lookup_cons, hc, ih]

lemma cell_filter_ne (r : Row) (c s : String) (h : c ≠ s) :
    cell c (r.filter (fun p => p.1 ≠ s)) = cell c r := by
  unfold cell
  rw [lookup_filter_ne r c s h]

lemma lookup_map_replace_self (r : Row) (c : String) (v : PyVal)
    (h : (r.lookup c).isSome) :
    (r.map (fun p => if p.1 = c then (c, v) else p)).lookup c = some v := by
  induction r with
  | nil => simp [List.lookup] at h
  | cons p t ih =>
    obtain ⟨k, w⟩ := p
    by_cases hp : k = c
    · simp [List.map_cons, hp, List.lookup_cons]
    · have hc : (c == k) = false := beq_eq_false_iff_ne.mpr (fun hh => hp hh.symm)
      rw [List.lookup_cons, hc] at h
      simp [List.map_cons, hp, List.lookup_cons, hc, ih h]

lemma lookup_map_replace_ne (r : Row) (c c' : String) (v : PyVal) (h : c' ≠ c) :
    (r.map (fun p => if p.1 = c then (c, v) else p)).lookup c' = r.lookup c' := by
  induction r with
  | nil => rfl
  | cons p t ih =>
    obtain ⟨k, w⟩ := p
    by_cases hp : k = c
    · have hc : (c' == k) = false := beq_eq_false_iff_ne.mpr (by rw [hp]; exact h)
      have hc2 : (c' == c) = false := beq_eq_false_iff_ne.mpr h
      simp [List.map_cons, hp, List.lookup_cons, hc, hc2, ih]
    · cases hc : c' == k with
      | true => simp [List.map_cons, hp, List.lookup_cons, hc]
      | false => simp [List.map_cons, hp, List.lookup_cons, hc, ih]

lemma names_map_replace (r : Row) (c : String) (v : PyVal) :
    (r.map (fun p => if p.1 = c then (c, v) else p)).map Prod.fst = r.map Prod.fst := by
  induction r with
  | nil => rfl
  | cons p t ih =>
    obtain ⟨k, w⟩ := p
    by_cases hp : k = c <;> simp [List.map_cons, hp, ih]

lemma lookup_append_left_none (l1 l2 : Row) (c : String) (h : l1.lookup c = none) :
    (l1 ++ l2).lookup c = l2.lookup c := by
  induction l1 with
  | nil => rfl
  | cons p t ih =>
    obtain ⟨k, w⟩ := p
    cases hc : c == k with
    | true => rw [List.lookup_cons, hc] at h; simp at h
    | false =>
      rw [List.lookup_cons, hc] at h
      rw [List.cons_append, List.lookup_cons, hc]
      exact ih h

lemma lookup_eq_none_of_not_mem_names (r : Row) (c : String)
    (h : c ∉ r.map Prod.fst) :
    r.lookup c = none := by
  induction r with
  | nil => rfl
  | cons p t ih =>
    obtain ⟨k, w⟩ := p
    simp only [List.map_cons, List.mem_cons, not_or] at h
    have hc : (c == k) = false := beq_eq_false_iff_ne.mpr h.1
    rw [List.lookup_cons, hc]
    exact ih h.2

lemma filter_map_replace_drop (r : Row) (c : String) (v : PyVal) :
    (r.map (fun p => if p.1 = c then (c, v) else p)).filter (fun p => p.1 ≠ c)
      = r.filter (fun p => p.1 ≠ c) := by
  induction r with
  | nil => rfl
  | cons p t ih =>
    obtain ⟨k, w⟩ := p
    simp only [ne_eq, decide_not] at ih
    by_cases hp : k = c <;> simp [List.map_cons, List.filter_cons, hp, ih]

/-- Collapsing `zipWith` whose function ignores the second list. -/
lemma zipWith_const_right {α β γ : Type} (f : α → γ) (as : List α) (bs : List β)
    (h : bs.length = as.length) :
    List.zipWith (fun a _ => f a) as bs = as.map f := by
  induction as generalizing bs with
  | nil => simp
  | cons a t ih =>
    cases bs with
    | nil => simp at h
    | cons b bt =>
      simp only [List.length_cons, Nat.succ_inj] at h
      simp [List.zipWith_cons_cons, ih bt h]

/-! ### DataFrame-level lemmas for the expander -/

lemma mem_zipWith {α β γ : Type} {f : α → β → γ} {as : List α} {bs : List β} {c : γ}
    (h : c ∈ List.zipWith f as bs) : ∃ a ∈ as, ∃ b ∈ bs, c = f a b := by
  induction as generalizing bs with
  | nil => simp at h
  | cons a t ih =>
    cases bs with
    | nil => simp at h
    | cons b bt =>
      rw [List.zipWith_cons_cons, List.mem_cons] at h
      rcases h with h | h
      · exact ⟨a, List.mem_cons_self a t, b, List.mem_cons_self b bt, h⟩
      · obtain ⟨a', ha', b', hb', hc⟩ := ih h
        exact ⟨a', List.mem_cons_of_mem a ha', b', List.mem_cons_of_mem b hb', hc⟩

lemma isEmpty_congr {α β : Type} (l1 : List α) (l2 : List β) (h : l1.length = l2.length) :
    l1.isEmpty = l2.isEmpty := by
  cases l1 <;> cases l2 <;> simp_all

lemma zipWith_eq_right {α β : Type} (f : α → β → β) (as : List α) (bs : List β)
    (hlen : bs.length = as.length) (h : ∀ a ∈ as, ∀ b, f a b = b) :
    List.zipWith f as bs = bs := by
  induction as generalizing bs with
  | nil => cases bs with
    | nil => rfl
    | cons b bt => simp at hlen
  | cons a t ih =>
    cases bs with
    | nil => simp at hlen
    | cons b bt =>
      simp only [List.length_cons, Nat.succ_inj] at hlen
      rw [List.zipWith_cons_cons, h a (List.mem_cons_self a t) b,
        ih bt hlen (fun x hx => h x (List.mem_cons_of_mem a hx))]

lemma dropCol_comm (df : DataFrame) (a b : String) :
    (df.dropCol a).dropCol b = (df.dropCol b).dropCol a := by
  unfold DataFrame.dropCol
  congr 1
  · exact List.filter_comm _ _ _
  · simp only [List.map_map]
    congr 1
    funext r
    exact List.filter_comm _ _ r

lemma dropCol_setCol_same (df : DataFrame) (c : String) (vs : List PyVal)
    (hlen : vs.length = df.rows.length) :
    (df.setCol c vs).dropCol c = df.dropCol c := by
  unfold DataFrame.setCol DataFrame.dropCol
  split
  · congr 1
    rw [List.map_zipWith]
    have hfn : (fun (r : Row) (v : PyVal) =>
        (r.map (fun p => if p.1 = c then (c, v) else p)).filter (fun p => p.1 ≠ c))
        = fun (r : Row) (_ : PyVal) => r.filter (fun p => p.1 ≠ c) := by
      funext r v
      exact filter_map_replace_drop r c v
    rw [hfn, zipWith_const_right _ _ _ hlen]
  · congr 1
    · simp [List.filter_append]
    · rw [List.map_zipWith]
      have hfn : (fun (r : Row) (v : PyVal) =>
          (r ++ [(c, v)]).filter (fun p => p.1 ≠ c))
          = fun (r : Row) (_ : PyVal) => r.filter (fun p => p.1 ≠ c) := by
        funext r v
        simp [List.filter_append]
      rw [hfn, zipWith_const_right _ _ _ hlen]

lemma getCol_dropCol_ne (df : DataFrame) (c s : String) (h : c ≠ s) :
    (df.dropCol s).getCol c = df.getCol c := by
  unfold DataFrame.dropCol DataFrame.getCol
  simp only [List.map_map]
  congr 1
  funext r
  exact cell_filter_ne r c s h

lemma lookup_isSome_of_mem_names (r : Row) (c : String) (h : c ∈ r.map Prod.fst) :
    (r.lookup c).isSome := by
  induction r with
  | nil => simp at h
  | cons p t ih =>
    obtain ⟨k, w⟩ := p
    by_cases hk : c = k
    · have hc : (c == k) = true := beq_iff_eq.mpr hk
      simp [List.lookup_cons, hc]
    · have hc : (c == k) = false := beq_eq_false_iff_ne.mpr hk
      rw [List.lookup_cons, hc]
      simp only [List.map_cons, List.mem_cons] at h
      rcases h with h | h
      · exact absurd h hk
      · exact ih h

lemma getCol_setCol_self (df : DataFrame) (c : String) (vs : List PyVal)
    (hrect : ∀ r ∈ df.rows, r.map Prod.fst = df.cols)
    (hlen : vs.length = df.rows.length) :
    (df.setCol c vs).getCol c = vs := by
  unfold DataFrame.setCol DataFrame.getCol
  split
  case isTrue hmem =>
    simp only [List.map_zipWith]
    refine zipWith_eq_right _ _ _ hlen (fun r hr v => ?_)
    have hsome : (r.lookup c).isSome := by
      refine lookup_isSome_of_mem_names r c ?_
      rw [hrect r hr]
      exact hmem
    unfold cell
    rw [lookup_map_replace_self r c v hsome]
    rfl
  case isFalse hmem =>
    simp only [List.map_zipWith]
    refine zipWith_eq_right _ _ _ hlen (fun r hr v => ?_)
    have hnone : r.lookup c = none := by
      refine lookup_eq_none_of_not_mem_names r c ?_
      rw [hrect r hr]
      exact hmem
    unfold cell
    rw [lookup_append_left_none r _ c hnone]
    simp [List.lookup_cons]

lemma expanderValidated_rect (jp lp : String → Option PyVal) (df : DataFrame)
    (hCT : "ConstructorTable" ∈ df.cols)
    (hrect : ∀ r ∈ df.rows, r.map Prod.fst = df.cols) :
    ∀ r ∈ (expanderValidated jp lp df).rows, r.map Prod.fst = df.cols := by
  intro r hr
  unfold expanderValidated DataFrame.setCol at hr
  rw [if_pos hCT] at hr
  obtain ⟨a, ha, b, _, hc⟩ := mem_zipWith hr
  rw [hc, names_map_replace]
  exact hrect a ha

lemma expanderValidated_getCT (jp lp : String → Option PyVal) (df : DataFrame)
    (hrect : ∀ r ∈ df.rows, r.map Prod.fst = df.cols) :
    (expanderValidated jp lp df).getCol "ConstructorTable"
      = (df.getCol "ConstructorTable").map (validate_constructor_data jp lp) := by
  unfold expanderValidated
  exact getCol_setCol_self df _ _ hrect (by simp)

lemma expanderDropped_getCD (jp lp : String → Option PyVal) (df : DataFrame)
    (hCT : "ConstructorTable" ∈ df.cols)
    (hrect : ∀ r ∈ df.rows, r.map Prod.fst = df.cols) :
    (expanderDropped jp lp df).getCol "constructor_data" = rowSelections jp lp df := by
  unfold expanderDropped
  rw [getCol_dropCol_ne _ _ _ (by decide)]
  unfold expanderSelected
  rw [getCol_setCol_self (expanderValidated jp lp df) _ _ ?_ (by simp)]
  · rw [expanderValidated_getCT jp lp df hrect]
    unfold rowSelections DataFrame.getCol
    rw [List.map_map, List.map_map]
    rfl
  · intro r hr
    rw [expanderValidated_cols jp lp df hCT]
    exact expanderValidated_rect jp lp df hCT hrect r hr

lemma expanderDropped_dropCD (jp lp : String → Option PyVal) (df : DataFrame) :
    (expanderDropped jp lp df).dropCol "constructor_data"
      = (df.dropCol "ConstructorTable").dropCol "constructor_data" := by
  unfold expanderDropped expanderSelected
  rw [dropCol_comm]
  rw [dropCol_setCol_same _ _ _ (by simp)]
  rw [dropCol_comm]
  unfold expanderValidated
  rw [dropCol_setCol_same _ _ _ (by simp)]

lemma expanderDropped_memCD (jp lp : String → Option PyVal) (df : DataFrame)
    (hCT : "ConstructorTable" ∈ df.cols) :
    "constructor_data" ∈ (expanderDropped jp lp df).cols := by
  unfold expanderDropped
  rw [dropCol_cols, expanderSelected_cols jp lp df hCT]
  split
  · simp only [List.mem_filter]
    refine ⟨by assumption, by decide⟩
  · simp only [List.filter_append, List.mem_append]
    right
    simp

lemma expanderDropped_dfEmpty (jp lp : String → Option PyVal) (df : DataFrame)
    (hCT : "ConstructorTable" ∈ df.cols) :
    (expanderDropped jp lp df).dfEmpty = df.rows.isEmpty := by
  unfold DataFrame.dfEmpty
  have h2 : (expanderDropped jp lp df).cols.isEmpty = false := by
    have := expanderDropped_memCD jp lp df hCT
    cases h : (expanderDropped jp lp df).cols with
    | nil => rw [h] at this; simp at this
    | cons a t => simp
  rw [h2, Bool.or_false]
  exact isEmpty_congr _ _ (by simp)

/-- C1 (amended): with the constructor-list column present, the expander
drops `ConstructorTable` and the intermediate `constructor_data` column,
and then: if the table is non-empty and the FIRST row's selected mapping
(`.iloc[0]`) is truthy, every row's selection is flattened by
`jsonNormalize` (nested keys becoming dot-joined path names) and merged
column-wise onto the table; otherwise — in particular even when a LATER
row's selection is non-empty — no new columns are added.  The branch
condition is the first row's selection, not "at least one row's". -/
theorem normalize_first_row_branch (jp lp : String → Option PyVal) (df : DataFrame)
    (hwf : df.WF) (hCT : "ConstructorTable" ∈ df.cols) :
    (df.rows ≠ [] → pyTruthy ((rowSelections jp lp df).headD .vNaN) = true →
        normalize_constructor_data jp lp df
          = concatH ((df.dropCol "ConstructorTable").dropCol "constructor_data")
              (jsonNormalize (rowSelections jp lp df)))
    ∧ (df.rows = [] ∨ pyTruthy ((rowSelections jp lp df).headD .vNaN) = false →
        normalize_constructor_data jp lp df
          = (df.dropCol "ConstructorTable").dropCol "constructor_data") := by
  obtain ⟨hnodup, hrect⟩ := hwf
  unfold normalize_constructor_data
  rw [if_pos hCT]
  unfold expanderExpand
  rw [expanderDropped_getCD jp lp df hCT hrect, expanderDropped_dfEmpty jp lp df hCT,
    expanderDropped_dropCD jp lp df]
  constructor
  · intro h1 h2
    rw [if_pos]
    rw [Bool.and_eq_true, Bool.not_eq_true', h2]
    refine ⟨?_, rfl⟩
    cases hrows : df.rows with
    | nil => exact absurd hrows h1
    | cons a t => simp
  · intro h12
    rw [if_neg]
    rw [Bool.and_eq_true, Bool.not_eq_true']
    rintro ⟨hA, hB⟩
    rcases h12 with h | h
    · rw [h] at hA
      simp at hA
    · rw [h] at hB
      exact Bool.false_ne_true hB

/-- C1 counterexample: in `dfFirstRowEmpty` the SECOND row's selected
mapping is non-empty (it is ferrari's record), so the claim "if at least
one row's selected mapping is non-empty, flatten and merge" demands new
columns (`constructorId`, `points`); but because the FIRST row's
selection is empty the code takes the no-expansion branch: the output is
just the `year` column and no `points` column exists. -/
theorem normalize_first_row_cex :
    selectFerrari (validate_constructor_data noParse noParse ferrariCell) ≠ .vDict []
      ∧ pyTruthy ((rowSelections noParse noParse dfFirstRowEmpty).getD 1 .vNone) = true
      ∧ normalize_constructor_data noParse noParse dfFirstRowEmpty
          = ⟨["year"], [[("year", .vInt 2020)], [("year", .vInt 2021)]]⟩
      ∧ "points" ∉ (normalize_constructor_data noParse noParse dfFirstRowEmpty).cols := by
  decide

/-- Witness for the amended C1 theorem at `dfExample` (its hypotheses
discharged concretely): the first row's selection is truthy and the
expansion branch fires. -/
theorem normalize_first_row_branch_witness :
    (dfExample.rows ≠ [] → pyTruthy ((rowSelections noParse noParse dfExample).headD .vNaN) = true →
        normalize_constructor_data noParse noParse dfExample
          = concatH ((dfExample.dropCol "ConstructorTable").dropCol "constructor_data")
              (jsonNormalize (rowSelections noParse noParse dfExample)))
    ∧ (dfExample.rows = [] ∨ pyTruthy ((rowSelections noParse noParse dfExample).headD .vNaN) = false →
        normalize_constructor_data noParse noParse dfExample
          = (dfExample.dropCol "ConstructorTable").dropCol "constructor_data") :=
  normalize_first_row_branch noParse noParse dfExample (by decide) (by decide)

/-- Witness for the C2 shape theorem at `dfFirstRowEmpty`. -/
theorem normalize_never_raises_shape_witness :
    ∃ extra,
      (normalize_constructor_data noParse noParse dfFirstRowEmpty).cols
        = (dfFirstRowEmpty.cols.filter (· ≠ "ConstructorTable")).filter (· ≠ "constructor_data")
            ++ extra
      ∧ (normalize_constructor_data noParse noParse dfFirstRowEmpty).rows.length
          = dfFirstRowEmpty.rows.length :=
  normalize_never_raises_shape noParse noParse dfFirstRowEmpty (by decide)

/-- C3: when the adapted `PipelineResult` has `success = false` or no
`data` (even with `success` literally true), the controller stops at
step 5: the response is the uniform failure with error label
`"Analysis failed"` and details `"Pipeline processing failed: "`
followed by the adapter's error text (`pipelineErrText` keeps a
non-empty error text verbatim), and the stage list ends at the result
adapter — coercion, code generation and code execution never run. -/
theorem controller_pipeline_failure_short_circuit (c : Collaborators) (t0 tEnd : Int)
    (tr : PyVal) (pr : PipelineResultM)
    (h1 : c.processQuery = .ok tr) (h2 : c.adaptQuery = .ok ())
    (h3 : c.runPipeline = .ok ()) (h4 : c.adaptResult = .ok pr)
    (h5 : pr.success = false ∨ pr.data = none) :
    analyze_f1_data c t0 tEnd
      = (Response.fail "Analysis failed"
           ("Pipeline processing failed: " ++ pipelineErrText pr.error) (tEnd - t0),
         [.interpret, .adaptQuery, .fetch, .adaptResult]) := by
  have hcond : (!pr.success || pr.data.isNone) = true := by
    rcases h5 with h | h
    · rw [h]
      simp
    · rw [h]
      simp
  unfold analyze_f1_data
  rw [h1, h2, h3, h4]
  simp only [hcond, if_true]
  rfl

/-- Concrete pipeline-failure collaborators: the adapter reports
`success = false` with error text `"boom"`. -/
def collabPipelineFail : Collaborators :=
  { processQuery := .ok .vNone
    adaptQuery := .ok ()
    runPipeline := .ok ()
    adaptResult := .ok { success := false, data := none, error := some "boom", metadata := .vNone }
    jp := noParse
    lp := noParse
    generate := .ok ""
    execute := .ok (true, .vNone, "") }

/-- Witness for the C3 theorem at `collabPipelineFail`. -/
theorem controller_pipeline_failure_witness :
    analyze_f1_data collabPipelineFail 0 5
      = (Response.fail "Analysis failed"
           ("Pipeline processing failed: " ++ pipelineErrText (some "boom")) (5 - 0),
         [.interpret, .adaptQuery, .fetch, .adaptResult]) :=
  controller_pipeline_failure_short_circuit collabPipelineFail 0 5 .vNone
    { success := false, data := none, error := some "boom", metadata := .vNone }
    rfl rfl rfl rfl (Or.inl rfl)

/-- C9: for every combination of collaborator outcomes — every stage may
either return or raise, `HTTPException` or not — the controller returns
a response (no fault escapes: the embedding converts every modelled
exception), that response is either the success shape or the uniform
failure shape with error label `"Analysis failed"`, and the
`processing_time` field equals the elapsed time `tEnd - t0` on success
and failure alike. -/
theorem controller_uniform_failure (c : Collaborators) (t0 tEnd : Int) :
    (analyze_f1_data c t0 tEnd).1.ptime = tEnd - t0
      ∧ ((∃ d cd tr m, (analyze_f1_data c t0 tEnd).1 = .ok d cd tr (tEnd - t0) m)
         ∨ (∃ det, (analyze_f1_data c t0 tEnd).1 = .fail "Analysis failed" det (tEnd - t0))) := by
  unfold analyze_f1_data
  cases hq : c.processQuery with
  | error e => cases e <;> exact ⟨rfl, Or.inr ⟨_, rfl⟩⟩
  | ok tr =>
  cases ha : c.adaptQuery with
  | error e => cases e <;> exact ⟨rfl, Or.inr ⟨_, rfl⟩⟩
  | ok u =>
  cases hp : c.runPipeline with
  | error e => cases e <;> exact ⟨rfl, Or.inr ⟨_, rfl⟩⟩
  | ok u2 =>
  cases hr : c.adaptResult with
  | error e => cases e <;> exact ⟨rfl, Or.inr ⟨_, rfl⟩⟩
  | ok pr =>
  cases hcond : (!pr.success || pr.data.isNone) with
  | true =>
    simp only [hcond, if_true]
    exact ⟨rfl, Or.inr ⟨_, rfl⟩⟩
  | false =>
  simp only [hcond, Bool.false_eq_true, if_false]
  cases hi : innerProcess c.jp c.lp (getResults pr.data) with
  | error e => cases e <;> exact ⟨rfl, Or.inr ⟨_, rfl⟩⟩
  | ok df2 =>
  cases hg : c.generate with
  | error e => cases e <;> exact ⟨rfl, Or.inr ⟨_, rfl⟩⟩
  | ok code =>
  cases hx : c.execute with
  | error e => cases e <;> exact ⟨rfl, Or.inr ⟨_, rfl⟩⟩
  | ok res =>
  obtain ⟨succ, result, executed⟩ := res
  cases succ with
  | false => exact ⟨rfl, Or.inr ⟨_, rfl⟩⟩
  | true => exact ⟨rfl, Or.inl ⟨result, executed, tr, pr.metadata, rfl⟩⟩

/-- C7: the controller's coercion of the pipeline payload (lines
180-189): a table passes through unchanged; a single record becomes a
one-row table; a list of records becomes a table with one row per
record; and when the payload is a bare scalar the whole request fails
with the shape-error detail
(`"Failed to process data: Cannot process results of type: ..."`) and
the stage list stops at the processing stage — code generation and code
execution, the stages that would use a table, never run. -/
theorem controller_coercion_shapes (c : Collaborators) (t0 tEnd : Int) (tr : PyVal)
    (pr : PipelineResultM) (v : PyVal)
    (h1 : c.processQuery = .ok tr) (h2 : c.adaptQuery = .ok ())
    (h3 : c.runPipeline = .ok ()) (h4 : c.adaptResult = .ok pr)
    (h5 : pr.success = true) (h6 : pr.data.isNone = false)
    (h7 : getResults pr.data = .val v) (h8 : v.isScalar = true) :
    (∀ d, coerceResults (.df d) = .ok d)
      ∧ (∀ kvs, coerceResults (.val (.vDict kvs)) = .ok (dfOfRecords [.vDict kvs])
          ∧ (dfOfRecords [.vDict kvs]).rows.length = 1)
      ∧ (∀ xs, xs.all PyVal.isDict = true →
          coerceResults (.val (.vList xs)) = .ok (dfOfRecords xs)
            ∧ (dfOfRecords xs).rows.length = xs.length)
      ∧ analyze_f1_data c t0 tEnd
          = (Response.fail "Analysis failed"
               ("Failed to process data: Cannot process results of type: " ++ v.typeName)
               (tEnd - t0),
             [.interpret, .adaptQuery, .fetch, .adaptResult, .process]) := by
  refine ⟨fun d => rfl, fun kvs => ⟨rfl, by simp [dfOfRecords]⟩, fun xs hall => ?_, ?_⟩
  · constructor
    · simp [coerceResults, dfOfList, hall]
    · simp [dfOfRecords]
  · have hcoerce : coerceResults (.val v) = .error (.err ("Cannot process results of type: " ++ v.typeName)) := by
      cases v <;> simp_all [coerceResults, PyVal.isScalar]
    have hinner : innerProcess c.jp c.lp (getResults pr.data)
        = .error (.http ("Failed to process data: Cannot process results of type: " ++ v.typeName)) := by
      unfold innerProcess
      rw [h7, hcoerce]
      rfl
    have hcond : (!pr.success || pr.data.isNone) = false := by
      rw [h5, h6]
      rfl
    unfold analyze_f1_data
    rw [h1, h2, h3, h4]
    simp only [hcond, Bool.false_eq_true, if_false, hinner]
    rfl

/-- Collaborators whose pipeline delivers a bare-scalar payload. -/
def collabScalar : Collaborators :=
  { processQuery := .ok .vNone
    adaptQuery := .ok ()
    runPipeline := .ok ()
    adaptResult := .ok { success := true, data := some [("results", .val (.vInt 7))],
                         error := none, metadata := .vNone }
    jp := noParse
    lp := noParse
    generate := .ok ""
    execute := .ok (true, .vNone, "") }

/-- Witness for the C7 theorem at `collabScalar` (payload `7`). -/
theorem controller_coercion_shapes_witness :
    (∀ d, coerceResults (.df d) = .ok d)
      ∧ (∀ kvs, coerceResults (.val (.vDict kvs)) = .ok (dfOfRecords [.vDict kvs])
          ∧ (dfOfRecords [.vDict kvs]).rows.length = 1)
      ∧ (∀ xs, xs.all PyVal.isDict = true →
          coerceResults (.val (.vList xs)) = .ok (dfOfRecords xs)
            ∧ (dfOfRecords xs).rows.length = xs.length)
      ∧ analyze_f1_data collabScalar 0 5
          = (Response.fail "Analysis failed"
               ("Failed to process data: Cannot process results of type: " ++ (PyVal.vInt 7).typeName)
               (5 - 0),
             [.interpret, .adaptQuery, .fetch, .adaptResult, .process]) :=
  controller_coercion_shapes collabScalar 0 5 .vNone
    { success := true, data := some [("results", .val (.vInt 7))], error := none, metadata := .vNone }
    (.vInt 7) rfl rfl rfl rfl rfl rfl (by decide) rfl

/-! ### Lemmas for the Table Normalizer -/

lemma pyEq_eq {x y : PyVal} (h : pyEq x y = true) :
    x = y ∧ x.isNaN = false ∧ y.isNaN = false := by
  simp only [pyEq, Bool.and_eq_true, Bool.not_eq_true', beq_iff_eq] at h
  exact ⟨h.2, h.1.1, h.1.2⟩

lemma cell_lookup_some {r : Row} {c : String} (h : (cell c r).isNaN = false) :
    r.lookup c = some (cell c r) := by
  unfold cell at *
  cases hl : r.lookup c with
  | none => rw [hl] at h; simp [PyVal.isNaN] at h
  | some w => simp

lemma dedupFirst_subset {α β : Type} [DecidableEq β] (f : α → β) (l : List α)
    (seen : List β) : ∀ a ∈ dedupFirst f l seen, a ∈ l := by
  induction l generalizing seen with
  | nil => intro a ha; simp [dedupFirst] at ha
  | cons x t ih =>
    intro a ha
    unfold dedupFirst at ha
    split at ha
    · exact List.mem_cons_of_mem x (ih seen a ha)
    · rw [List.mem_cons] at ha
      rcases ha with ha | ha
      · exact ha ▸ List.mem_cons_self x t
      · exact List.mem_cons_of_mem x (ih _ a ha)

lemma dedupFirst_key_not_seen {α β : Type} [DecidableEq β] (f : α → β) (l : List α)
    (seen : List β) : ∀ a ∈ dedupFirst f l seen, f a ∉ seen := by
  induction l generalizing seen with
  | nil => intro a ha; simp [dedupFirst] at ha
  | cons x t ih =>
    intro a ha
    unfold dedupFirst at ha
    split at ha
    · exact ih seen a ha
    · rw [List.mem_cons] at ha
      rcases ha with ha | ha
      · rw [ha]; assumption
      · intro hmem
        exact ih _ a ha (List.mem_cons_of_mem _ hmem)

lemma dedupFirst_pairwise {α β : Type} [DecidableEq β] (f : α → β) (l : List α)
    (seen : List β) :
    List.Pairwise (fun a b => f a ≠ f b) (dedupFirst f l seen) := by
  induction l generalizing seen with
  | nil => exact List.Pairwise.nil
  | cons x t ih =>
    unfold dedupFirst
    split
    · exact ih seen
    · refine List.Pairwise.cons (fun b hb => ?_) (ih _)
      have := dedupFirst_key_not_seen f t (f x :: seen) b hb
      intro hxb
      exact this (hxb ▸ List.mem_cons_self _ _)

lemma dedupFirst_eq_self {α β : Type} [DecidableEq β] (f : α → β) (l : List α)
    (seen : List β)
    (hpw : List.Pairwise (fun a b => f a ≠ f b) l)
    (hseen : ∀ a ∈ l, f a ∉ seen) :
    dedupFirst f l seen = l := by
  induction l generalizing seen with
  | nil => rfl
  | cons x t ih =>
    unfold dedupFirst
    rw [if_neg (hseen x (List.mem_cons_self x t))]
    rw [List.pairwise_cons] at hpw
    refine congrArg (x :: ·) (ih _ hpw.2 (fun a ha => ?_))
    rw [List.mem_cons, not_or]
    exact ⟨fun hh => hpw.1 a ha hh.symm, hseen a (List.mem_cons_of_mem x ha)⟩

lemma map_eq_map_iff_of_mem {α β : Type} (l : List α) (f g : α → β) :
    l.map f = l.map g ↔ ∀ a ∈ l, f a = g a := by
  induction l with
  | nil => simp
  | cons x t ih => simp [List.map_cons, ih]

@[simp] lemma numericFilterStep_cols (df : DataFrame) :
    (numericFilterStep df).cols = df.cols := by
  unfold numericFilterStep
  split <;> rfl

@[simp] lemma dedupStep_cols (df : DataFrame) :
    (dedupStep df).cols = df.cols := by
  unfold dedupStep
  split <;> rfl

lemma numericFilterStep_rows_mem {df : DataFrame} {r : Row}
    (h : r ∈ (numericFilterStep df).rows) : r ∈ df.rows := by
  unfold numericFilterStep DataFrame.filterOnCol at h
  split at h
  · exact List.mem_of_mem_filter h
  · exact h

lemma numericFilterStep_rows_prop {df : DataFrame} {r : Row}
    (hCT : "ConstructorTable" ∈ df.cols)
    (h : r ∈ (numericFilterStep df).rows) :
    (!(cell "ConstructorTable" r).isNumericLike) = true := by
  unfold numericFilterStep DataFrame.filterOnCol at h
  rw [if_pos hCT] at h
  dsimp only at h
  exact (List.mem_filter.mp h).2

lemma dedupStep_rows_mem {df : DataFrame} {r : Row}
    (h : r ∈ (dedupStep df).rows) : r ∈ df.rows := by
  unfold dedupStep at h
  split at h
  · exact h
  · exact dedupFirst_subset _ _ _ r h

lemma numericFilterStep_id (df : DataFrame)
    (h : "ConstructorTable" ∈ df.cols →
      ∀ r ∈ df.rows, (!(cell "ConstructorTable" r).isNumericLike) = true) :
    numericFilterStep df = df := by
  unfold numericFilterStep
  split
  case isTrue hCT =>
    unfold DataFrame.filterOnCol
    rw [List.filter_eq_self.mpr (h hCT)]
  case isFalse hCT => rfl

lemma dedupStep_id (df : DataFrame)
    (h : List.Pairwise (fun a b =>
        dupKey (df.cols.filter (· ≠ "ConstructorTable")) a
          ≠ dupKey (df.cols.filter (· ≠ "ConstructorTable")) b) df.rows) :
    dedupStep df = df := by
  unfold dedupStep
  split
  · rfl
  · unfold DataFrame.dropDuplicates
    rw [dedupFirst_eq_self _ _ _ h (by simp)]

lemma yearSeasonStep_id (df : DataFrame)
    (h : ¬("year" ∈ df.cols ∧ "season" ∈ df.cols)) :
    yearSeasonStep df = df := by
  unfold yearSeasonStep
  rw [if_neg h]

lemma dedupStep_pairwise (df : DataFrame)
    (hne : (df.cols.filter (· ≠ "ConstructorTable")).isEmpty = false) :
    List.Pairwise (fun a b => dupKey (df.cols.filter (· ≠ "ConstructorTable")) a
      ≠ dupKey (df.cols.filter (· ≠ "ConstructorTable")) b) (dedupStep df).rows := by
  unfold dedupStep
  rw [if_neg (fun h => absurd (h ▸ hne) (by decide))]
  exact dedupFirst_pairwise _ _ _

/-- Dropping `season` from two year-season-consistent rows cannot
collapse distinct dedup keys: on rows where `year == season` holds, the
`season` binding is determined by the `year` binding, which the
season-free key still contains. -/
lemma dropSeason_key_inj {cols : List String} {a b : Row}
    (hyear : "year" ∈ cols)
    (hya : yearSeasonPred a = true) (hyb : yearSeasonPred b = true)
    (heq : dupKey ((cols.filter (· ≠ "season")).filter (· ≠ "ConstructorTable"))
             (a.filter (fun p => p.1 ≠ "season"))
         = dupKey ((cols.filter (· ≠ "season")).filter (· ≠ "ConstructorTable"))
             (b.filter (fun p => p.1 ≠ "season"))) :
    dupKey (cols.filter (· ≠ "ConstructorTable")) a
      = dupKey (cols.filter (· ≠ "ConstructorTable")) b := by
  have hpt : ∀ c ∈ (cols.filter (· ≠ "season")).filter (· ≠ "ConstructorTable"),
      a.lookup c = b.lookup c := by
    intro c hc
    have hcs : c ≠ "season" := by
      have h1 := (List.mem_filter.mp hc).1
      have h2 := (List.mem_filter.mp h1).2
      exact of_decide_eq_true h2
    have h0 := (map_eq_map_iff_of_mem _ _ _).mp heq c hc
    rwa [lookup_filter_ne a c "season" hcs, lookup_filter_ne b c "season" hcs] at h0
  have hyearO : "year" ∈ (cols.filter (· ≠ "season")).filter (· ≠ "ConstructorTable") := by
    simp only [List.mem_filter]
    refine ⟨⟨hyear, by decide⟩, by decide⟩
  refine (map_eq_map_iff_of_mem _ _ _).mpr (fun c hc => ?_)
  by_cases hcs : c = "season"
  · subst hcs
    unfold yearSeasonPred at hya hyb
    obtain ⟨heqa, _, hnaSa⟩ := pyEq_eq hya
    obtain ⟨heqb, _, hnaSb⟩ := pyEq_eq hyb
    have hy_ab : a.lookup "year" = b.lookup "year" := hpt _ hyearO
    have hcy : cell "year" a = cell "year" b := by unfold cell; rw [hy_ab]
    rw [cell_lookup_some hnaSa, cell_lookup_some hnaSb, ← heqa, ← heqb, hcy]
  · have hcO : c ∈ (cols.filter (· ≠ "season")).filter (· ≠ "ConstructorTable") := by
      rw [List.mem_filter] at hc ⊢
      exact ⟨by rw [List.mem_filter]; exact ⟨hc.1, decide_eq_true hcs⟩, hc.2⟩
    exact hpt c hcO

/-- C5: the Table Normalizer is idempotent on every table.  The second
pass changes nothing: the numeric-`ConstructorTable` filter keeps rows
it already kept; the keep-first deduplication sees pairwise-distinct
keys (even though the second pass's key omits the dropped `season`
column, the `year == season` filter makes `season` redundant in the
first pass's key); and the year/season step is skipped because `season`
is already gone (or was never there). -/
theorem clean_dataframe_idempotent (df : DataFrame) :
    clean_dataframe (clean_dataframe df) = clean_dataframe df := by
  unfold clean_dataframe
  set B := dedupStep (numericFilterStep df) with hB
  have hBcols : B.cols = df.cols := by
    rw [hB, dedupStep_cols, numericFilterStep_cols]
  by_cases hys : ("year" ∈ B.cols ∧ "season" ∈ B.cols)
  case neg =>
    rw [yearSeasonStep_id B hys]
    have h1 : numericFilterStep B = B := by
      apply numericFilterStep_id
      intro hCT r hr
      have hrA : r ∈ (numericFilterStep df).rows := by
        rw [hB] at hr
        exact dedupStep_rows_mem hr
      have hCTdf : "ConstructorTable" ∈ df.cols := by rwa [hBcols] at hCT
      exact numericFilterStep_rows_prop hCTdf hrA
    rw [h1]
    have h2 : dedupStep B = B := by
      by_cases hsafe : ((numericFilterStep df).cols.filter (· ≠ "ConstructorTable")).isEmpty = true
      · have hAid : B = numericFilterStep df := by
          rw [hB]
          unfold dedupStep
          rw [if_pos hsafe]
        rw [hAid]
        unfold dedupStep
        rw [if_pos hsafe]
      · apply dedupStep_id
        have hfalse : ((numericFilterStep df).cols.filter
            (· ≠ "ConstructorTable")).isEmpty = false := Bool.eq_false_iff.mpr hsafe
        have hpw := dedupStep_pairwise (numericFilterStep df) hfalse
        rw [← hB] at hpw
        rw [hBcols]
        rwa [numericFilterStep_cols] at hpw
    rw [h2]
    exact yearSeasonStep_id B hys
  case pos =>
    obtain ⟨hyear, hseason⟩ := hys
    have hyB : yearSeasonStep B
        = DataFrame.dropCol ⟨B.cols, B.rows.filter yearSeasonPred⟩ "season" := by
      unfold yearSeasonStep
      rw [if_pos ⟨hyear, hseason⟩]
    rw [hyB]
    set O := DataFrame.dropCol ⟨B.cols, B.rows.filter yearSeasonPred⟩ "season" with hOdef
    have hOcols : O.cols = B.cols.filter (· ≠ "season") := rfl
    have hOrows : O.rows
        = (B.rows.filter yearSeasonPred).map (fun r => r.filter (fun p => p.1 ≠ "season")) := rfl
    have h3 : yearSeasonStep O = O := by
      apply yearSeasonStep_id
      rintro ⟨-, hsO⟩
      rw [hOcols, List.mem_filter] at hsO
      exact absurd (of_decide_eq_true hsO.2) (by simp)
    have h1 : numericFilterStep O = O := by
      apply numericFilterStep_id
      intro hCTO r hr
      rw [hOrows] at hr
      obtain ⟨r', hr', rfl⟩ := List.mem_map.mp hr
      have hr'B : r' ∈ B.rows := List.mem_of_mem_filter hr'
      have hCTdf : "ConstructorTable" ∈ df.cols := by
        rw [hOcols, List.mem_filter] at hCTO
        rw [← hBcols]
        exact hCTO.1
      have hrA : r' ∈ (numericFilterStep df).rows := by
        rw [hB] at hr'B
        exact dedupStep_rows_mem hr'B
      have hprop := numericFilterStep_rows_prop hCTdf hrA
      rwa [cell_filter_ne r' "ConstructorTable" "season" (by decide)]
    have h2 : dedupStep O = O := by
      unfold dedupStep
      split
      · rfl
      case isFalse hne =>
        have hsafeA_ne : ((numericFilterStep df).cols.filter
            (· ≠ "ConstructorTable")).isEmpty = false := by
          rw [numericFilterStep_cols]
          by_contra hcontra
          have hempty : (df.cols.filter (· ≠ "ConstructorTable")).isEmpty = true := by
            cases h : (df.cols.filter (· ≠ "ConstructorTable")).isEmpty
            · exact absurd h hcontra
            · rfl
          rw [List.isEmpty_iff] at hempty
          apply hne
          rw [hOcols, hBcols, List.filter_comm, hempty]
          rfl
        have hpwB := dedupStep_pairwise (numericFilterStep df) hsafeA_ne
        rw [← hB, numericFilterStep_cols] at hpwB
        have hsub : List.Sublist (B.rows.filter yearSeasonPred) B.rows :=
          List.filter_sublist B.rows
        have hfiltered := List.Pairwise.sublist hsub hpwB
        have hupg : List.Pairwise (fun a b =>
            dupKey (O.cols.filter (· ≠ "ConstructorTable")) (a.filter (fun p => p.1 ≠ "season"))
              ≠ dupKey (O.cols.filter (· ≠ "ConstructorTable")) (b.filter (fun p => p.1 ≠ "season")))
            (B.rows.filter yearSeasonPred) := by
          refine hfiltered.imp_of_mem ?_
          intro a b ha hb hneq heq
          apply hneq
          have hya : yearSeasonPred a = true := (List.mem_filter.mp ha).2
          have hyb : yearSeasonPred b = true := (List.mem_filter.mp hb).2
          have hyeardf : "year" ∈ df.cols := by rwa [hBcols] at hyear
          rw [hOcols, hBcols] at heq
          exact dropSeason_key_inj hyeardf hya hyb heq
        unfold DataFrame.dropDuplicates
        rw [hOrows]
        rw [dedupFirst_eq_self _ _ _ (List.pairwise_map.mpr hupg) (by simp)]
        rw [← hOrows]
    rw [h1, h2, h3]

/-- Concrete table with `year` and `season` columns: one consistent row,
one mismatched row. -/
def dfYearSeason : DataFrame :=
  ⟨["year", "season", "a"],
   [[("year", .vInt 2021), ("season", .vInt 2021), ("a", .vInt 1)],
    [("year", .vInt 2021), ("season", .vInt 2020), ("a", .vInt 2)]]⟩

/-- C6: when both `year` and `season` columns exist, the Normalizer's
output has no `season` column, still has `year`, its rows are exactly
the deduplicated survivors on which `year == season` held (with the
`season` binding removed), and every output row stems from an input row
satisfying `year == season`. -/
theorem clean_year_season (df : DataFrame)
    (hy : "year" ∈ df.cols) (hs : "season" ∈ df.cols) :
    "season" ∉ (clean_dataframe df).cols
      ∧ "year" ∈ (clean_dataframe df).cols
      ∧ (clean_dataframe df).rows
          = ((dedupStep (numericFilterStep df)).rows.filter yearSeasonPred).map
              (fun r => r.filter (fun p => p.1 ≠ "season"))
      ∧ ∀ r ∈ (clean_dataframe df).rows, ∃ r', r' ∈ df.rows
          ∧ yearSeasonPred r' = true
          ∧ r = r'.filter (fun p => p.1 ≠ "season") := by
  have hBcols : (dedupStep (numericFilterStep df)).cols = df.cols := by
    rw [dedupStep_cols, numericFilterStep_cols]
  have hcond : "year" ∈ (dedupStep (numericFilterStep df)).cols
      ∧ "season" ∈ (dedupStep (numericFilterStep df)).cols := by
    rw [hBcols]
    exact ⟨hy, hs⟩
  unfold clean_dataframe yearSeasonStep
  rw [if_pos hcond]
  refine ⟨?_, ?_, rfl, ?_⟩
  · rw [dropCol_cols, List.mem_filter]
    rintro ⟨-, habs⟩
    exact absurd (of_decide_eq_true habs) (by simp)
  · rw [dropCol_cols, List.mem_filter]
    exact ⟨hcond.1, by decide⟩
  · intro r hr
    obtain ⟨r', hr', rfl⟩ := List.mem_map.mp hr
    refine ⟨r', ?_, (List.mem_filter.mp hr').2, rfl⟩
    exact numericFilterStep_rows_mem (dedupStep_rows_mem (List.mem_of_mem_filter hr'))

/-- Witness for the C6 theorem at `dfYearSeason`. -/
theorem clean_year_season_witness :
    "season" ∉ (clean_dataframe dfYearSeason).cols
      ∧ "year" ∈ (clean_dataframe dfYearSeason).cols
      ∧ (clean_dataframe dfYearSeason).rows
          = ((dedupStep (numericFilterStep dfYearSeason)).rows.filter yearSeasonPred).map
              (fun r => r.filter (fun p => p.1 ≠ "season"))
      ∧ ∀ r ∈ (clean_dataframe dfYearSeason).rows, ∃ r', r' ∈ dfYearSeason.rows
          ∧ yearSeasonPred r' = true
          ∧ r = r'.filter (fun p => p.1 ≠ "season") :=
  clean_year_season dfYearSeason (by decide) (by decide)
